import Mathlib

/-!
Shallow embedding of the configuration-driven path aggregation and settings
merge logic of `tasks.py` (functions `_load_config`, `_get_path_odoo`,
`pyright`, `settings`).

The YAML/JSON data that flows through the program is modelled by the
inductive type `Value`.  A Python mapping is an association list in
insertion order; Python `None` at the boundary of an optional result is
`Option.none`.  Each task runs inside a `try/except` that catches every
exception, logs it and returns `None`; we model a task as a `Trace`:
its result (`Except PyErr α`, where `Except.error` is an uncaught Python
exception), the number of reads of `config.yaml` it performs, and the log
entries it emits.  The content of `config.yaml` is an input
`env : Except String Value`: `Except.ok v` is a file that parses to `v`,
`Except.error msg` is a missing/unreadable/malformed file (yaml raises
with message `msg`).
-/

namespace Tasks

/-- A YAML/JSON value as loaded by `yaml.load` / `json.load`. -/
inductive Value where
  | vstr : String → Value
  | vbool : Bool → Value
  | vint : Int → Value
  | vnull : Value
  | vlist : List Value → Value
  | vmap : List (String × Value) → Value

/-- A log record emitted through the module logger (`logger.info` /
`logger.error`). -/
inductive LogEntry where
  | info : String → LogEntry
  | error : String → LogEntry
  deriving DecidableEq

/-- A Python exception.  The only exceptions this code can raise itself are
`AttributeError`s from calling `.get`/`.values` on a non-dict. -/
inductive PyErr where
  | attributeError : String → PyErr
  deriving DecidableEq

/-- `str(e)` for the exceptions we model, used in the f-string log messages. -/
def pyErrMsg : PyErr → String
  | PyErr.attributeError m => m

/-- The Python type name of an optional value, as it appears in
`AttributeError` messages. -/
def pyTypeName : Option Value → String
  | none => "NoneType"
  | some (Value.vstr _) => "str"
  | some (Value.vbool _) => "bool"
  | some (Value.vint _) => "int"
  | some Value.vnull => "NoneType"
  | some (Value.vlist _) => "list"
  | some (Value.vmap _) => "dict"

/-- Python `str(x)` for the scalar values this program interpolates into
f-strings (`f"{_get_path_odoo()}/addons"` and friends).  Containers never
reach an f-string in the modelled claims; their `str` is a repr-like
rendering whose exact text is irrelevant here. -/
def pyStr : Value → String
  | Value.vstr s => s
  | Value.vbool b => if b then "True" else "False"
  | Value.vint n => toString n
  | Value.vnull => "None"
  | Value.vlist _ => "[...]"
  | Value.vmap _ => "\x7b...\x7d"

/-- Python `str(x)` where `x` may be `None` (e.g. the result of
`_get_path_odoo()`): `str(None) = "None"`. -/
def pyStrOpt : Option Value → String
  | none => "None"
  | some v => pyStr v

/-- Lookup in a mapping (Python `d[k]` presence / `d.get(k)` value),
first entry with the given key. -/
def dlookup (k : String) : List (String × Value) → Option Value
  | [] => none
  | p :: rest => if p.1 = k then some p.2 else dlookup k rest

/-- Python `x.get(k)` where `x` may be any value or `None`: returns the
mapped value (or `None` when the key is absent) on a dict, raises
`AttributeError` on anything else. -/
def dictGet (x : Option Value) (k : String) : Except PyErr (Option Value) :=
  match x with
  | some (Value.vmap m) => Except.ok (dlookup k m)
  | _ => Except.error (PyErr.attributeError
      ("\x27" ++ pyTypeName x ++ "\x27 object has no attribute \x27get\x27"))

/-- Python `x.values()` where `x` may be any value or `None`: the values of
a dict in insertion order, `AttributeError` otherwise. -/
def dictValuesE (x : Option Value) : Except PyErr (List Value) :=
  match x with
  | some (Value.vmap m) => Except.ok (m.map Prod.snd)
  | _ => Except.error (PyErr.attributeError
      ("\x27" ++ pyTypeName x ++ "\x27 object has no attribute \x27values\x27"))

/-- The repo-collection loop shared by `pyright` (tasks.py lines 45-50) and
`settings` (lines 71-76):

    repos = []
    for repo in config.get("repos").values():
        if isinstance(repo, list):
            repos.extend(repo)
        if isinstance(repo, str):
            repos.append(repo)
-/
def collectRepos (vals : List Value) : List Value :=
  vals.foldl (fun acc repo =>
    let acc := match repo with
      | Value.vlist l => acc ++ l
      | _ => acc
    match repo with
    | Value.vstr s => acc ++ [Value.vstr s]
    | _ => acc) []

/-- Modelled from the spec (`aggregate_paths` contract, §4.1): the
contribution of one `repos` value to the aggregated sequence — a sequence
value is appended element by element with no nesting, a single path is
appended, anything else contributes nothing. -/
def flatten_one : Value → List Value
  | Value.vlist l => l
  | Value.vstr s => [Value.vstr s]
  | _ => []

/-- Modelled from the spec (`aggregate_paths` contract, §4.1): the in-place
flattening of the `repos` values, preserving iteration order. -/
def flatten_spec : List Value → List Value
  | [] => []
  | v :: rest => flatten_one v ++ flatten_spec rest

/-- The observable behaviour of one operation: its returned value
(`Except.error` would be an uncaught Python exception escaping to the
caller), how many times it opened `config.yaml`, and what it logged. -/
structure Trace (α : Type) where
  result : Except PyErr α
  reads : Nat
  logs : List LogEntry

/-- What `_load_config` returns for a given file content: the parsed value,
or `None` after the `except` branch when the file is missing/unreadable/
malformed (tasks.py lines 21-28). -/
def config_of : Except String Value → Option Value
  | Except.ok v => some v
  | Except.error _ => none

/-- The log lines `_load_config` emits (tasks.py lines 23 and 28). -/
def load_config_logs : Except String Value → List LogEntry
  | Except.ok _ => [LogEntry.info "Loading configuration from config.yaml"]
  | Except.error msg =>
      [LogEntry.info "Loading configuration from config.yaml",
       LogEntry.error ("Failed to load configuration: " ++ msg)]

/-- `_load_config` (tasks.py lines 21-28): opens `config.yaml` once, parses
it, and on any failure logs and falls through returning `None`.  It never
raises to its caller. -/
def load_config (env : Except String Value) : Trace (Option Value) :=
  ⟨Except.ok (config_of env), 1, load_config_logs env⟩

/-- The value `_get_path_odoo` returns (tasks.py line 33):
`_load_config().get("repos").get("odoo")`, with every `AttributeError`
(absent config, non-dict `repos`) caught and turned into `None`; an absent
`"odoo"` key is already `None` with no exception. -/
def odoo_path (env : Except String Value) : Option Value :=
  match dictGet (config_of env) "repos" with
  | Except.error _ => none
  | Except.ok reposVal =>
    match dictGet reposVal "odoo" with
    | Except.error _ => none
    | Except.ok p => p

/-- The log lines of the body of `_get_path_odoo` after the inner
`_load_config` call (tasks.py lines 34 and 37). -/
def get_path_odoo_logs (env : Except String Value) : List LogEntry :=
  match dictGet (config_of env) "repos" with
  | Except.error e => [LogEntry.error ("Failed to get Odoo path: " ++ pyErrMsg e)]
  | Except.ok reposVal =>
    match dictGet reposVal "odoo" with
    | Except.error e => [LogEntry.error ("Failed to get Odoo path: " ++ pyErrMsg e)]
    | Except.ok p => [LogEntry.info ("Odoo path obtained: " ++ pyStrOpt p)]

/-- `_get_path_odoo` (tasks.py lines 31-37): one nested `_load_config`
(hence exactly one read of `config.yaml` per call), catches everything,
never raises. -/
def get_path_odoo (env : Except String Value) : Trace (Option Value) :=
  ⟨Except.ok (odoo_path env), 1, load_config_logs env ++ get_path_odoo_logs env⟩

/-- The aggregated path list built inline by `pyright` (tasks.py lines
44-51) and `settings` (lines 70-77): iterate `config.get("repos").values()`
collecting strings and flattened lists, then append
`f"{_get_path_odoo()}/addons"`.  `none` means the aggregation raised
(caught at the task boundary): the loaded config or its `repos` entry is
not a dict. -/
def aggregate_paths (env : Except String Value) : Option (List Value) :=
  match dictGet (config_of env) "repos" with
  | Except.error _ => none
  | Except.ok reposVal =>
    match dictValuesE reposVal with
    | Except.error _ => none
    | Except.ok vals =>
        some (collectRepos vals ++ [Value.vstr (pyStrOpt (odoo_path env) ++ "/addons")])

/-- The `pyright` task (tasks.py lines 40-59).  Result `some data` is the
mapping written to `pyrightconfig.json`; `none` means the `except` branch
ran and nothing was written.  Reads of `config.yaml`: one from the direct
`_load_config()` call on line 44, plus one from the `_get_path_odoo()` call
on line 51 when the loop completed. -/
def pyright (env : Except String Value) : Trace (Option Value) :=
  let t := load_config env
  let logs0 := LogEntry.info "Creating pyrightconfig.json" :: t.logs
  match dictGet (config_of env) "repos" with
  | Except.error e =>
      ⟨Except.ok none, t.reads,
       logs0 ++ [LogEntry.error ("Failed to create pyrightconfig.json: " ++ pyErrMsg e)]⟩
  | Except.ok reposVal =>
    match dictValuesE reposVal with
    | Except.error e =>
        ⟨Except.ok none, t.reads,
         logs0 ++ [LogEntry.error ("Failed to create pyrightconfig.json: " ++ pyErrMsg e)]⟩
    | Except.ok vals =>
        let g := get_path_odoo env
        let rs := collectRepos vals ++ [Value.vstr (pyStrOpt (odoo_path env) ++ "/addons")]
        ⟨Except.ok (some (Value.vmap [("extraPaths", Value.vlist rs)])),
         t.reads + g.reads,
         logs0 ++ g.logs ++ [LogEntry.info "pyrightconfig.json created successfully"]⟩

/-- The settings dict literal of the `settings` task (tasks.py lines
79-99), parameterized by the aggregated repo paths and by the value of the
two `_get_path_odoo()` calls interpolated on lines 83 and 85 (both calls
return the same value for a fixed file content). -/
def buildSettings (repos : List Value) (odoo : Option Value) : List (String × Value) :=
  [("python.autoComplete.extraPaths", Value.vlist repos),
   ("python.formatting.provider", Value.vstr "none"),
   ("python.linting.flake8Enabled", Value.vbool true),
   ("python.linting.ignorePatterns",
      Value.vlist [Value.vstr (pyStrOpt odoo ++ "/**/*.py")]),
   ("python.linting.pylintArgs",
      Value.vlist
        [Value.vstr ("--init-hook=\"import sys;sys.path.append(\x27"
            ++ pyStrOpt odoo ++ "\x27)\""),
         Value.vstr "--load-plugins=pylint_odoo"]),
   ("python.linting.pylintEnabled", Value.vbool true),
   ("python.defaultInterpreterPath", Value.vstr "python3"),
   ("restructuredtext.confPath", Value.vstr ""),
   ("search.followSymlinks", Value.vbool false),
   ("search.useIgnoreFiles", Value.vbool false),
   ("[python]", Value.vmap [("editor.defaultFormatter", Value.vstr "ms-python.black-formatter")]),
   ("[json]", Value.vmap [("editor.defaultFormatter", Value.vstr "esbenp.prettier-vscode")]),
   ("[jsonc]", Value.vmap [("editor.defaultFormatter", Value.vstr "esbenp.prettier-vscode")]),
   ("[markdown]", Value.vmap [("editor.defaultFormatter", Value.vstr "esbenp.prettier-vscode")]),
   ("[yaml]", Value.vmap [("editor.defaultFormatter", Value.vstr "esbenp.prettier-vscode")]),
   ("[xml]", Value.vmap [("editor.formatOnSave", Value.vbool false)])]

/-- The settings mapping the `settings` task generates before any merge
with an existing file: the dict literal applied to the aggregated paths
(`none` when aggregation raised first). -/
def generated_settings (env : Except String Value) : Option (List (String × Value)) :=
  (aggregate_paths env).map (fun rs => buildSettings rs (odoo_path env))

/-- Python `d[k] = v` on a dict as an insertion-ordered association list:
an existing key keeps its position and gets the new value, a new key is
appended at the end. -/
def dictInsert (m : List (String × Value)) (k : String) (v : Value) :
    List (String × Value) :=
  if m.any (fun p => p.1 = k) then
    m.map (fun p => if p.1 = k then (k, v) else p)
  else m ++ [(k, v)]

/-- Python `current.update(upd)`: set every key of `upd`, in order, into
`current` (tasks.py line 104). -/
def dictUpdate (current upd : List (String × Value)) : List (String × Value) :=
  upd.foldl (fun acc p => dictInsert acc p.1 p.2) current

/-- The merge-and-persist step of the `settings` task (tasks.py lines
101-109): if a settings file exists its parsed mapping is updated in place
by the generated mapping (shallow key overwrite), otherwise the generated
mapping itself is written. -/
def merge_and_persist (existing : Option (List (String × Value)))
    (generated : List (String × Value)) : List (String × Value) :=
  match existing with
  | some cur => dictUpdate cur generated
  | none => generated

/-- The `settings` task (tasks.py lines 62-113).  `existing` is the parsed
content of a pre-existing `.vscode/settings.json` (`none` when the file
does not exist).  Result `some m` is the mapping written back; `none` means
the `except` branch ran.  Reads of `config.yaml`: the direct
`_load_config()` on line 70, plus one per `_get_path_odoo()` call on lines
77, 83 and 85. -/
def settings (env : Except String Value) (existing : Option (List (String × Value))) :
    Trace (Option (List (String × Value))) :=
  let t := load_config env
  let logs0 := LogEntry.info "Creating or updating settings.json in .vscode directory" :: t.logs
  match dictGet (config_of env) "repos" with
  | Except.error e =>
      ⟨Except.ok none, t.reads,
       logs0 ++ [LogEntry.error ("Failed to create or update settings.json: " ++ pyErrMsg e)]⟩
  | Except.ok reposVal =>
    match dictValuesE reposVal with
    | Except.error e =>
        ⟨Except.ok none, t.reads,
         logs0 ++ [LogEntry.error ("Failed to create or update settings.json: " ++ pyErrMsg e)]⟩
    | Except.ok vals =>
        let g1 := get_path_odoo env
        let g2 := get_path_odoo env
        let g3 := get_path_odoo env
        let rs := collectRepos vals ++ [Value.vstr (pyStrOpt (odoo_path env) ++ "/addons")]
        let stg := buildSettings rs (odoo_path env)
        ⟨Except.ok (some (merge_and_persist existing stg)),
         t.reads + g1.reads + g2.reads + g3.reads,
         logs0 ++ g1.logs ++ g2.logs ++ g3.logs
           ++ [LogEntry.info "settings.json created or updated successfully"]⟩

/-! ### Helper lemmas -/

/-- The repo-collection loop is the spec's order-preserving flattening:
running the fold from any accumulator appends the flattened values. -/
theorem foldl_collect (vs : List Value) (acc : List Value) :
    vs.foldl (fun acc repo =>
      let acc := match repo with
        | Value.vlist l => acc ++ l
        | _ => acc
      match repo with
      | Value.vstr s => acc ++ [Value.vstr s]
      | _ => acc) acc = acc ++ flatten_spec vs := by
  induction vs generalizing acc with
  | nil => simp [flatten_spec]
  | cons v rest ih =>
    rw [List.foldl_cons, ih]
    cases v <;> simp [flatten_spec, flatten_one]

/-- The loop of tasks.py lines 45-50 computes exactly the spec-side
flattening of the `repos` values. -/
theorem collectRepos_eq_flatten_spec (vs : List Value) :
    collectRepos vs = flatten_spec vs := by
  rw [collectRepos, foldl_collect]
  simp

theorem flatten_spec_append (l1 l2 : List Value) :
    flatten_spec (l1 ++ l2) = flatten_spec l1 ++ flatten_spec l2 := by
  induction l1 with
  | nil => simp [flatten_spec]
  | cons v rest ih => simp [flatten_spec, ih]

/-- A string value contributes exactly one element, so flattening a list of
strings keeps its length. -/
theorem flatten_spec_length_of_strings (vs : List Value)
    (h : ∀ v ∈ vs, ∃ s, v = Value.vstr s) :
    (flatten_spec vs).length = vs.length := by
  induction vs with
  | nil => rfl
  | cons v rest ih =>
    obtain ⟨s, hs⟩ := h v (List.mem_cons_self v rest)
    subst hs
    simp [flatten_spec, flatten_one]
    exact ih (fun w hw => h w (List.mem_cons_of_mem _ hw))

theorem dlookup_append (k : String) (m1 m2 : List (String × Value)) :
    dlookup k (m1 ++ m2) =
      match dlookup k m1 with
      | some v => some v
      | none => dlookup k m2 := by
  induction m1 with
  | nil => simp [dlookup]
  | cons p rest ih =>
    by_cases h : p.1 = k <;> simp [dlookup, h, ih]

theorem dlookup_eq_none_of_no_key (k : String) (m : List (String × Value))
    (h : ∀ p ∈ m, p.1 ≠ k) : dlookup k m = none := by
  induction m with
  | nil => rfl
  | cons p rest ih =>
    simp [dlookup, h p (List.mem_cons_self p rest)]
    exact ih (fun q hq => h q (List.mem_cons_of_mem _ hq))

/-- Overwriting entries of a key different from the one being looked up
does not change the lookup. -/
theorem dlookup_map_overwrite_ne (k k' : String) (v : Value)
    (m : List (String × Value)) (hne : k' ≠ k) :
    dlookup k (m.map (fun p => if p.1 = k' then (k', v) else p)) = dlookup k m := by
  induction m with
  | nil => rfl
  | cons p rest ih =>
    by_cases h : p.1 = k'
    · simp [dlookup, h, hne, ih]
    · simp [dlookup, h, ih]

/-- When the key is present, overwriting it makes the lookup return the new
value. -/
theorem dlookup_map_overwrite_eq (k : String) (v : Value)
    (m : List (String × Value)) (hmem : ∃ p ∈ m, p.1 = k) :
    dlookup k (m.map (fun p => if p.1 = k then (k, v) else p)) = some v := by
  induction m with
  | nil => simp at hmem
  | cons p rest ih =>
    by_cases h : p.1 = k
    · simp [dlookup, h]
    · obtain ⟨q, hq, hqk⟩ := hmem
      rcases List.mem_cons.mp hq with hq | hq
      · exact absurd (hq ▸ hqk) h
      · simp [dlookup, h]
        exact ih ⟨q, hq, hqk⟩

/-- Lookup after one Python-style `d[k'] = v` assignment. -/
theorem dlookup_dictInsert (m : List (String × Value)) (k k' : String) (v : Value) :
    dlookup k (dictInsert m k' v) =
      if k' = k then some v else dlookup k m := by
  unfold dictInsert
  by_cases hany : m.any (fun p => p.1 = k') = true
  · rw [if_pos hany]
    by_cases hk : k' = k
    · subst hk
      rw [if_pos rfl]
      simp only [List.any_eq_true, decide_eq_true_eq] at hany
      exact dlookup_map_overwrite_eq k' v m hany
    · rw [if_neg hk]
      exact dlookup_map_overwrite_ne k k' v m hk
  · rw [if_neg hany]
    simp only [List.any_eq_true, decide_eq_true_eq, not_exists, not_and] at hany
    rw [dlookup_append]
    by_cases hk : k' = k
    · subst hk
      rw [dlookup_eq_none_of_no_key k' m (fun p hp => hany p hp)]
      simp [dlookup]
    · cases hdm : dlookup k m with
      | some w => simp [hk]
      | none => simp [dlookup, hk]

/-- Lookup after Python `current.update(upd)`: keys of `upd` (which has no
duplicate keys, being a dict) win, everything else falls through to
`current`. -/
theorem dlookup_dictUpdate (current upd : List (String × Value)) (k : String)
    (hnd : (upd.map Prod.fst).Nodup) :
    dlookup k (dictUpdate current upd) =
      match dlookup k upd with
      | some v => some v
      | none => dlookup k current := by
  induction upd generalizing current with
  | nil => simp [dictUpdate, dlookup]
  | cons p rest ih =>
    simp only [List.map_cons, List.nodup_cons] at hnd
    obtain ⟨hnotin, hndrest⟩ := hnd
    rw [dictUpdate, List.foldl_cons]
    have step := ih (dictInsert current p.1 p.2) hndrest
    rw [dictUpdate] at step
    rw [step, dlookup_dictInsert]
    by_cases hk : p.1 = k
    · subst hk
      have hrest : dlookup p.1 rest = none := by
        refine dlookup_eq_none_of_no_key _ _ (fun q hq hqk => hnotin ?_)
        exact hqk ▸ List.mem_map_of_mem Prod.fst hq
      simp [dlookup, hrest]
    · cases hdr : dlookup k rest with
      | some w => simp [dlookup, hk, hdr]
      | none => simp [dlookup, hk, hdr]

/-- In a mapping without duplicate keys, an entry is determined by its key. -/
theorem entry_eq_of_nodup_keys (g : List (String × Value)) (k : String) (v : Value)
    (hnd : (g.map Prod.fst).Nodup) (hmem : (k, v) ∈ g) :
    ∀ q ∈ g, q.1 = k → q = (k, v) := by
  induction g with
  | nil => intro q hq; simp at hq
  | cons p rest ih =>
    simp only [List.map_cons, List.nodup_cons] at hnd
    obtain ⟨hnotin, hndrest⟩ := hnd
    intro q hq hqk
    rcases List.mem_cons.mp hmem with hm | hm
    · rcases List.mem_cons.mp hq with h | h
      · rw [h, hm]
      · exfalso
        apply hnotin
        have hk : k ∈ rest.map Prod.fst := hqk ▸ List.mem_map_of_mem Prod.fst h
        rw [← hm]
        exact hk
    · rcases List.mem_cons.mp hq with h | h
      · exfalso
        apply hnotin
        have hk : k ∈ rest.map Prod.fst := List.mem_map_of_mem Prod.fst hm
        rw [show p.1 = k from h ▸ hqk]
        exact hk
      · exact ih hndrest hm q h hqk

/-- Assigning an entry that is already present (same key, same value) in a
duplicate-free mapping changes nothing. -/
theorem dictInsert_mem_self (g : List (String × Value)) (k : String) (v : Value)
    (hnd : (g.map Prod.fst).Nodup) (hmem : (k, v) ∈ g) :
    dictInsert g k v = g := by
  unfold dictInsert
  have hany : g.any (fun p => p.1 = k) = true := by
    simp only [List.any_eq_true, decide_eq_true_eq]
    exact ⟨(k, v), hmem, rfl⟩
  rw [if_pos hany]
  have : ∀ q ∈ g, (if q.1 = k then (k, v) else q) = q := by
    intro q hq
    by_cases h : q.1 = k
    · rw [if_pos h, entry_eq_of_nodup_keys g k v hnd hmem q hq h]
    · rw [if_neg h]
  calc g.map (fun p => if p.1 = k then (k, v) else p)
      = g.map id := List.map_congr_left this
    _ = g := List.map_id g

/-- Updating a duplicate-free mapping with a sub-collection of its own
entries is the identity. -/
theorem dictUpdate_self_sub (g l : List (String × Value))
    (hnd : (g.map Prod.fst).Nodup) (hsub : ∀ p ∈ l, p ∈ g) :
    dictUpdate g l = g := by
  induction l with
  | nil => rfl
  | cons p rest ih =>
    rw [dictUpdate, List.foldl_cons]
    have hp : (p.1, p.2) ∈ g := hsub p (List.mem_cons_self p rest)
    rw [dictInsert_mem_self g p.1 p.2 hnd hp]
    exact ih (fun q hq => hsub q (List.mem_cons_of_mem _ hq))

/-- `pyright`'s returned mapping is `extraPaths` over the aggregated path
list, and it fails exactly when aggregation fails. -/
theorem pyright_result (env : Except String Value) :
    (pyright env).result =
      Except.ok ((aggregate_paths env).map
        (fun rs => Value.vmap [("extraPaths", Value.vlist rs)])) := by
  unfold pyright aggregate_paths
  cases hg : dictGet (config_of env) "repos" with
  | error e => simp
  | ok reposVal =>
    cases hv : dictValuesE reposVal with
    | error e => simp [hv]
    | ok vals => simp [hv]

/-- `settings` persists the generated mapping merged over the existing
file, and fails exactly when aggregation fails. -/
theorem settings_result (env : Except String Value)
    (existing : Option (List (String × Value))) :
    (settings env existing).result =
      Except.ok ((generated_settings env).map
        (fun g => merge_and_persist existing g)) := by
  unfold settings generated_settings aggregate_paths
  cases hg : dictGet (config_of env) "repos" with
  | error e => simp
  | ok reposVal =>
    cases hv : dictValuesE reposVal with
    | error e => simp [hv]
    | ok vals => simp [hv]

/-! ### Concrete configurations used to instantiate the claims -/

/-- `config.yaml` content `repos: {a: /x, odoo: /odoo}`. -/
def rmC1 : List (String × Value) :=
  [("a", Value.vstr "/x"), ("odoo", Value.vstr "/odoo")]

def mC1 : List (String × Value) := [("repos", Value.vmap rmC1)]

def envC1 : Except String Value := Except.ok (Value.vmap mC1)

/-- `config.yaml` content `repos: {a: /x, b: [/y, /z], odoo: /odoo}`, the
scenario of spec §8 property 6. -/
def rmC2 : List (String × Value) :=
  [("a", Value.vstr "/x"),
   ("b", Value.vlist [Value.vstr "/y", Value.vstr "/z"]),
   ("odoo", Value.vstr "/odoo")]

def mC2 : List (String × Value) := [("repos", Value.vmap rmC2)]

def envC2 : Except String Value := Except.ok (Value.vmap mC2)

/-- `config.yaml` content `repos: {odoo: /odoo}`. -/
def envW : Except String Value :=
  Except.ok (Value.vmap [("repos", Value.vmap [("odoo", Value.vstr "/odoo")])])

/-- The same `repos` with an extra unrelated `python` key. -/
def envB : Except String Value :=
  Except.ok (Value.vmap [("repos", Value.vmap [("odoo", Value.vstr "/odoo")]),
                         ("python", Value.vstr "3.11")])

/-- The aggregated path list of `envW`. -/
def rsW : List Value := [Value.vstr "/odoo", Value.vstr "/odoo/addons"]

/-- The settings mapping `settings` generates for `envW`. -/
def gW4 : List (String × Value) := buildSettings rsW (some (Value.vstr "/odoo"))

/-- An existing settings file with a private key and a conflicting key. -/
def exW : List (String × Value) :=
  [("keep", Value.vstr "old"), ("both", Value.vstr "old")]

/-- A generated mapping overwriting `both` and adding `fresh`. -/
def gW3 : List (String × Value) :=
  [("both", Value.vstr "new"), ("fresh", Value.vstr "f")]

/-! ### Claims -/

/-- C1: for every configuration whose `repos` mapping contains only string
values (the distinguished `odoo` entry being the string `s`), the path
aggregation performed by the `pyright` and `settings` operations produces a
sequence of length `len(repos) + 1` whose last element is the odoo path
with `"/addons"` appended: `pyright` writes it as `extraPaths` and
`settings` as `python.autoComplete.extraPaths`. -/
theorem c1_all_string_repos (env : Except String Value)
    (m rm : List (String × Value)) (s : String)
    (henv : env = Except.ok (Value.vmap m))
    (hrepos : dlookup "repos" m = some (Value.vmap rm))
    (hstr : ∀ p ∈ rm, ∃ t, p.2 = Value.vstr t)
    (hodoo : dlookup "odoo" rm = some (Value.vstr s)) :
    ∃ rs, aggregate_paths env = some rs ∧
      rs.length = rm.length + 1 ∧
      rs.getLast? = some (Value.vstr (s ++ "/addons")) ∧
      (pyright env).result =
        Except.ok (some (Value.vmap [("extraPaths", Value.vlist rs)])) ∧
      ∃ g, generated_settings env = some g ∧
        dlookup "python.autoComplete.extraPaths" g = some (Value.vlist rs) := by
  subst henv
  have hop : odoo_path (Except.ok (Value.vmap m)) = some (Value.vstr s) := by
    simp [odoo_path, config_of, dictGet, hrepos, hodoo]
  have hagg : aggregate_paths (Except.ok (Value.vmap m)) =
      some (collectRepos (rm.map Prod.snd) ++ [Value.vstr (s ++ "/addons")]) := by
    simp [aggregate_paths, config_of, dictGet, dictValuesE, hrepos, hop, pyStrOpt, pyStr]
  refine ⟨_, hagg, ?_, ?_, ?_, ?_⟩
  · rw [List.length_append, collectRepos_eq_flatten_spec,
        flatten_spec_length_of_strings]
    · simp
    · intro v hv
      obtain ⟨p, hp, hpv⟩ := List.mem_map.mp hv
      obtain ⟨t, ht⟩ := hstr p hp
      exact ⟨t, by rw [← hpv, ht]⟩
  · exact List.getLast?_concat _
  · rw [pyright_result, hagg]
    rfl
  · refine ⟨buildSettings (collectRepos (rm.map Prod.snd)
        ++ [Value.vstr (s ++ "/addons")]) (some (Value.vstr s)), ?_, ?_⟩
    · rw [generated_settings, hagg, hop]
      rfl
    · rfl

/-- C1 witness: the configuration `repos: {a: /x, odoo: /odoo}`. -/
theorem c1_witness :
    ∃ rs, aggregate_paths envC1 = some rs ∧
      rs.length = rmC1.length + 1 ∧
      rs.getLast? = some (Value.vstr ("/odoo" ++ "/addons")) ∧
      (pyright envC1).result =
        Except.ok (some (Value.vmap [("extraPaths", Value.vlist rs)])) ∧
      ∃ g, generated_settings envC1 = some g ∧
        dlookup "python.autoComplete.extraPaths" g = some (Value.vlist rs) :=
  c1_all_string_repos envC1 mC1 rmC1 "/odoo" rfl rfl
    (by intro p hp
        rcases List.mem_cons.mp hp with h | h
        · exact ⟨"/x", by rw [h]⟩
        · rcases List.mem_cons.mp h with h | h
          · exact ⟨"/odoo", by rw [h]⟩
          · simp at h)
    rfl

/-- C2 counterexample: on `repos: {a: /x, b: [/y, /z], odoo: /odoo}` the
aggregation also appends the iterated `odoo` entry itself before the
synthesized `odoo/addons` path, so the claimed four-element result is
wrong. -/
theorem c2_counterexample :
    aggregate_paths envC2 =
      some [Value.vstr "/x", Value.vstr "/y", Value.vstr "/z",
            Value.vstr "/odoo", Value.vstr "/odoo/addons"] ∧
    aggregate_paths envC2 ≠
      some [Value.vstr "/x", Value.vstr "/y", Value.vstr "/z",
            Value.vstr "/odoo/addons"] := by
  refine ⟨rfl, fun h => ?_⟩
  rw [show aggregate_paths envC2 =
      some [Value.vstr "/x", Value.vstr "/y", Value.vstr "/z",
            Value.vstr "/odoo", Value.vstr "/odoo/addons"] from rfl] at h
  have hlen := congrArg (fun o => Option.map List.length o) h
  simp at hlen

/-- C2 amended: aggregation flattens sequence values in place (no nesting)
and preserves the insertion order of `repos` — it equals the spec-side
order-preserving flattening followed by the synthesized odoo path — and on
the config `{repos: {a: "/x", b: ["/y", "/z"], odoo: "/odoo"}}` the result
is `["/x", "/y", "/z", "/odoo", "/odoo/addons"]`: the `odoo` entry is
itself iterated like every other repo before the synthesized path. -/
theorem c2_amended (env : Except String Value) (m rm : List (String × Value))
    (henv : env = Except.ok (Value.vmap m))
    (hrepos : dlookup "repos" m = some (Value.vmap rm)) :
    aggregate_paths env =
      some (flatten_spec (rm.map Prod.snd)
        ++ [Value.vstr (pyStrOpt (odoo_path env) ++ "/addons")]) ∧
    aggregate_paths envC2 =
      some [Value.vstr "/x", Value.vstr "/y", Value.vstr "/z",
            Value.vstr "/odoo", Value.vstr "/odoo/addons"] := by
  subst henv
  constructor
  · simp [aggregate_paths, config_of, dictGet, dictValuesE, hrepos,
      collectRepos_eq_flatten_spec]
  · rfl

/-- C2 witness: the amended claim instantiated on the scenario config. -/
theorem c2_witness :
    aggregate_paths envC2 =
      some (flatten_spec (rmC2.map Prod.snd)
        ++ [Value.vstr (pyStrOpt (odoo_path envC2) ++ "/addons")]) ∧
    aggregate_paths envC2 =
      some [Value.vstr "/x", Value.vstr "/y", Value.vstr "/z",
            Value.vstr "/odoo", Value.vstr "/odoo/addons"] :=
  c2_amended envC2 mC2 rmC2 rfl rfl

/-- C3: the settings merge is a shallow key overwrite: every key of the
existing mapping absent from the generated mapping keeps its original
value, and every key of the generated mapping (whose keys, coming from a
dict, are duplicate-free) maps to exactly the generated value — even a
nested mapping is replaced wholesale, never merged recursively. -/
theorem c3_shallow_merge (ex g : List (String × Value)) (k : String)
    (hg : (g.map Prod.fst).Nodup) :
    (dlookup k g = none →
      dlookup k (merge_and_persist (some ex) g) = dlookup k ex) ∧
    (∀ v, dlookup k g = some v →
      dlookup k (merge_and_persist (some ex) g) = some v) := by
  have h := dlookup_dictUpdate ex g k hg
  simp only [merge_and_persist] at *
  constructor
  · intro hnone
    rw [h, hnone]
  · intro v hv
    rw [h, hv]

/-- C3 witness: merging `{both: new, fresh: f}` over `{keep: old, both:
old}` keeps `keep ↦ old` and overwrites `both ↦ new`. -/
theorem c3_witness :
    dlookup "keep" (merge_and_persist (some exW) gW3) = dlookup "keep" exW ∧
    dlookup "both" (merge_and_persist (some exW) gW3) = some (Value.vstr "new") :=
  ⟨(c3_shallow_merge exW gW3 "keep" (by decide)).1 rfl,
   (c3_shallow_merge exW gW3 "both" (by decide)).2 (Value.vstr "new") rfl⟩

/-- C4: the settings merge is idempotent: merging the generated mapping
into an existing file whose parsed contents already equal the generated
mapping yields exactly the generated mapping (here even with its key order
preserved), both at the merge step and through the whole `settings`
operation. -/
theorem c4_merge_idempotent (env : Except String Value)
    (g : List (String × Value))
    (hgen : generated_settings env = some g)
    (hnd : (g.map Prod.fst).Nodup) :
    merge_and_persist (some g) g = g ∧
    (settings env (some g)).result = Except.ok (some g) := by
  have hmp : merge_and_persist (some g) g = g := by
    simp only [merge_and_persist]
    exact dictUpdate_self_sub g g hnd (fun p hp => hp)
  refine ⟨hmp, ?_⟩
  rw [settings_result, hgen]
  simp [hmp]

/-- C4 witness: `repos: {odoo: /odoo}` with an existing settings file equal
to the generated mapping. -/
theorem c4_witness :
    merge_and_persist (some gW4) gW4 = gW4 ∧
    (settings envW (some gW4)).result = Except.ok (some gW4) :=
  c4_merge_idempotent envW gW4 rfl (by decide)

/-- C5 counterexample: on the well-formed configuration `repos:
{odoo: /odoo}` the `pyright` task opens `config.yaml` twice (the direct
`_load_config()` plus the one inside `_get_path_odoo()`) and the
`settings` task four times, refuting "at most one read per invocation". -/
theorem c5_counterexample :
    (pyright envW).reads = 2 ∧ ¬ (pyright envW).reads ≤ 1 ∧
    (settings envW none).reads = 4 ∧ ¬ (settings envW none).reads ≤ 1 := by
  have h1 : (pyright envW).reads = 2 := rfl
  have h2 : (settings envW none).reads = 4 := rfl
  refine ⟨h1, ?_, h2, ?_⟩
  · rw [h1]; omega
  · rw [h2]; omega

/-- C5 amended: `_load_config` and `_get_path_odoo` each read the
configuration file exactly once per call, so one invocation of `pyright`
reads it at most twice and one invocation of `settings` at most four times
(one direct load plus one per `_get_path_odoo()` call site reached). -/
theorem c5_amended (env : Except String Value)
    (existing : Option (List (String × Value))) :
    (load_config env).reads = 1 ∧
    (get_path_odoo env).reads = 1 ∧
    (pyright env).reads ≤ 2 ∧
    (settings env existing).reads ≤ 4 := by
  refine ⟨rfl, rfl, ?_, ?_⟩
  · unfold pyright
    rcases hg : dictGet (config_of env) "repos" with e | reposVal
    · simp [load_config]
    · rcases hv : dictValuesE reposVal with e | vals
      · simp [hv, load_config]
      · simp [hv, load_config, get_path_odoo]
  · unfold settings
    rcases hg : dictGet (config_of env) "repos" with e | reposVal
    · simp [load_config]
    · rcases hv : dictValuesE reposVal with e | vals
      · simp [hv, load_config]
      · simp [hv, load_config, get_path_odoo]

/-- C6: with a malformed (or missing/unreadable) configuration file,
`_load_config` logs the failure and returns `None`; `pyright` and
`settings` then hit an `AttributeError` dereferencing the absent config,
catch it at their own boundary, log an error and return without writing —
no exception escapes to the caller (every result is `Except.ok`). -/
theorem c6_malformed_config_no_crash (msg : String)
    (existing : Option (List (String × Value))) :
    (load_config (Except.error msg)).result = Except.ok none ∧
    LogEntry.error ("Failed to load configuration: " ++ msg)
      ∈ (load_config (Except.error msg)).logs ∧
    (pyright (Except.error msg)).result = Except.ok none ∧
    (∃ t, LogEntry.error t ∈ (pyright (Except.error msg)).logs) ∧
    (settings (Except.error msg) existing).result = Except.ok none ∧
    (∃ t, LogEntry.error t ∈ (settings (Except.error msg) existing).logs) := by
  have hplogs : (pyright (Except.error msg)).logs =
      [LogEntry.info "Creating pyrightconfig.json",
       LogEntry.info "Loading configuration from config.yaml",
       LogEntry.error ("Failed to load configuration: " ++ msg),
       LogEntry.error ("Failed to create pyrightconfig.json: \x27NoneType\x27 object has no attribute \x27get\x27")] := rfl
  have hslogs : (settings (Except.error msg) existing).logs =
      [LogEntry.info "Creating or updating settings.json in .vscode directory",
       LogEntry.info "Loading configuration from config.yaml",
       LogEntry.error ("Failed to load configuration: " ++ msg),
       LogEntry.error ("Failed to create or update settings.json: \x27NoneType\x27 object has no attribute \x27get\x27")] := rfl
  refine ⟨rfl, ?_, rfl, ?_, rfl, ?_⟩
  · simp [load_config, load_config_logs]
  · exact ⟨"Failed to create pyrightconfig.json: \x27NoneType\x27 object has no attribute \x27get\x27",
      by rw [hplogs]; simp⟩
  · exact ⟨"Failed to create or update settings.json: \x27NoneType\x27 object has no attribute \x27get\x27",
      by rw [hslogs]; simp⟩

/-- C7: when `repos` exists but has no `odoo` key, `_get_path_odoo` returns
`None` without raising (Python `dict.get` just yields `None`), and the
aggregation silently appends the placeholder string `"None/addons"`
(`f"{None}/addons"`) as the final element. -/
theorem c7_missing_odoo_placeholder (env : Except String Value)
    (m rm : List (String × Value))
    (henv : env = Except.ok (Value.vmap m))
    (hrepos : dlookup "repos" m = some (Value.vmap rm))
    (hodoo : dlookup "odoo" rm = none) :
    odoo_path env = none ∧
    (get_path_odoo env).result = Except.ok none ∧
    ∃ rs, aggregate_paths env = some rs ∧
      rs.getLast? = some (Value.vstr "None/addons") := by
  subst henv
  have hop : odoo_path (Except.ok (Value.vmap m)) = none := by
    simp [odoo_path, config_of, dictGet, hrepos, hodoo]
  refine ⟨hop, by simp [get_path_odoo, hop], ?_⟩
  have hagg : aggregate_paths (Except.ok (Value.vmap m)) =
      some (collectRepos (rm.map Prod.snd) ++ [Value.vstr "None/addons"]) := by
    simp [aggregate_paths, config_of, dictGet, dictValuesE, hrepos, hop, pyStrOpt]
  exact ⟨_, hagg, List.getLast?_concat _⟩

/-- C7 witness: the configuration `repos: {a: /x}` with no `odoo` entry. -/
theorem c7_witness :
    odoo_path (Except.ok (Value.vmap [("repos", Value.vmap [("a", Value.vstr "/x")])])) = none ∧
    (get_path_odoo (Except.ok (Value.vmap [("repos", Value.vmap [("a", Value.vstr "/x")])]))).result = Except.ok none ∧
    ∃ rs, aggregate_paths (Except.ok (Value.vmap [("repos", Value.vmap [("a", Value.vstr "/x")])])) = some rs ∧
      rs.getLast? = some (Value.vstr "None/addons") :=
  c7_missing_odoo_placeholder _ [("repos", Value.vmap [("a", Value.vstr "/x")])]
    [("a", Value.vstr "/x")] rfl rfl rfl

/-- C8: when no settings file exists, `settings` persists exactly the
generated mapping, nothing added or removed. -/
theorem c8_fresh_write_exact (env : Except String Value)
    (g : List (String × Value))
    (hgen : generated_settings env = some g) :
    (settings env none).result = Except.ok (some g) := by
  rw [settings_result, hgen]
  rfl

/-- C8 witness: `repos: {odoo: /odoo}` with no existing settings file. -/
theorem c8_witness :
    (settings envW none).result = Except.ok (some gW4) :=
  c8_fresh_write_exact envW gW4 rfl

/-- C9: constructing the generated settings mapping is deterministic and
side-effect free: any two invocations that agree on the aggregated path
sequence and on the distinguished odoo path generate equal settings
mappings. -/
theorem c9_generated_settings_deterministic (env1 env2 : Except String Value)
    (hagg : aggregate_paths env1 = aggregate_paths env2)
    (hodoo : odoo_path env1 = odoo_path env2) :
    generated_settings env1 = generated_settings env2 := by
  unfold generated_settings
  rw [hagg, hodoo]

/-- C9 witness: two different configuration files (one with an extra
`python` key) with equal aggregated paths generate equal settings. -/
theorem c9_witness :
    generated_settings envW = generated_settings envB :=
  c9_generated_settings_deterministic envW envB rfl rfl

/-- C10: a `repos` value that is neither a string nor a sequence (a number,
a nested mapping, a null, a boolean) is silently skipped by the collection
loop — it contributes no element wherever it sits — and its presence never
makes the aggregation fail. -/
theorem c10_non_path_values_skipped (v : Value)
    (hs : ∀ s, v ≠ Value.vstr s) (hl : ∀ l, v ≠ Value.vlist l) :
    (∀ pre post : List Value,
      collectRepos (pre ++ v :: post) = collectRepos (pre ++ post)) ∧
    (∀ m rm : List (String × Value),
      dlookup "repos" m = some (Value.vmap rm) →
      ∃ rs, aggregate_paths (Except.ok (Value.vmap m)) = some rs) := by
  have hone : flatten_one v = [] := by
    cases v <;> first
      | rfl
      | exact absurd rfl (hs _)
      | exact absurd rfl (hl _)
  constructor
  · intro pre post
    rw [collectRepos_eq_flatten_spec, collectRepos_eq_flatten_spec,
        flatten_spec_append, flatten_spec_append]
    simp [flatten_spec, hone]
  · intro m rm hrepos
    refine ⟨collectRepos (rm.map Prod.snd)
      ++ [Value.vstr (pyStrOpt (odoo_path (Except.ok (Value.vmap m))) ++ "/addons")], ?_⟩
    simp [aggregate_paths, config_of, dictGet, dictValuesE, hrepos]

/-- C10 witness: the integer value `5` inside `repos` is skipped and
aggregation over `repos: {a: 5}` still succeeds. -/
theorem c10_witness :
    collectRepos [Value.vstr "/x", Value.vint 5, Value.vstr "/y"] =
      collectRepos [Value.vstr "/x", Value.vstr "/y"] ∧
    ∃ rs, aggregate_paths (Except.ok (Value.vmap
      [("repos", Value.vmap [("a", Value.vint 5)])])) = some rs := by
  have h := c10_non_path_values_skipped (Value.vint 5)
    (fun s hc => Value.noConfusion hc) (fun l hc => Value.noConfusion hc)
  exact ⟨h.1 [Value.vstr "/x"] [Value.vstr "/y"],
         h.2 _ [("a", Value.vint 5)] rfl⟩

end Tasks
